import Mathlib

/-!
Verification development for the AI-Job-Application-Agent repository.

This file gives a shallow embedding, in Lean 4, of the decision logic of the
form-filling agent: the completion/submission gate, the deterministic
fallback field classifier, the repair strategist, the field-verification
tolerance rules, the classifier cache, the routing functions of the
orchestration graph, and the bounded main loop.  Python floats used for
thresholds and confidences are modelled exactly as rationals; Python strings
as Lean strings; Python dicts either as structures (fixed key sets) or as
association lists / finite partial functions.
-/

/-! ## Python string primitives

Models of the Python string operations the sources use: `str.lower`,
`str.strip`, the `in` substring test, `str.replace(c, "")` for a single
character, `str.strip("/")`, and the digit filter `re.sub(r"\D", "", s)`.
-/

/-- Model of Python `str.lower` (per-character lowering). -/
def py_lower (s : String) : String :=
  ⟨s.toList.map Char.toLower⟩

/-- Model of Python `str.strip()`: drop leading and trailing whitespace. -/
def py_strip (s : String) : String :=
  ⟨((s.toList.dropWhile Char.isWhitespace).reverse.dropWhile Char.isWhitespace).reverse⟩

/-- `list_has_sub hay sub` models Python `sub in hay` on character lists:
`sub` occurs contiguously inside `hay`. -/
def list_has_sub (sub : List Char) : List Char → Bool
  | [] => sub.isEmpty
  | c :: t => sub.isPrefixOf (c :: t) || list_has_sub sub t

/-- Model of the Python substring test `sub in hay`. -/
def contains_sub (hay sub : String) : Bool :=
  list_has_sub sub.toList hay.toList

/-- `contains_any hay subs` models Python
`any(indicator in hay for indicator in subs)`. -/
def contains_any (hay : String) (subs : List String) : Bool :=
  subs.any (fun sub => contains_sub hay sub)

/-- Model of Python `re.sub(r"\D", "", s)`: keep only the decimal digits. -/
def digits_of (s : String) : List Char :=
  s.toList.filter Char.isDigit

/-- Model of Python `s.replace(c, "")` for a one-character pattern. -/
def remove_char (c : Char) (s : String) : String :=
  ⟨s.toList.filter (fun d => d ≠ c)⟩

/-- Model of Python `s.strip("/")`: drop leading and trailing slashes. -/
def strip_slashes (s : String) : String :=
  ⟨((s.toList.dropWhile (fun c => c = '/')).reverse.dropWhile (fun c => c = '/')).reverse⟩

/-! ## `utils/validation.py` — `FormVerifier`

Direct translation of `FormVerifier.verify_field_value` and its helpers
`_verify_email_match`, `_verify_phone_match`, `_verify_url_match`,
`_verify_text_match` and `_calculate_similarity`.  Each verifier returns the
source `(bool, message)` pair.
-/

/-- `_calculate_similarity`: fraction of positionally matching characters,
measured against the longer string (`zip` truncates at the shorter one). -/
def calculate_similarity (s1 s2 : String) : ℚ :=
  if s1 = "" ∧ s2 = "" then 1
  else if s1 = "" ∨ s2 = "" then 0
  else
    let l1 := s1.toList
    let l2 := s2.toList
    let longer := if l1.length > l2.length then l1 else l2
    let shorter := if l1.length > l2.length then l2 else l1
    if longer.length = 0 then 1
    else (((longer.zip shorter).filter (fun p => p.1 = p.2)).length : ℚ) / (longer.length : ℚ)

/-- `FormVerifier._verify_email_match`: lowercase/strip equality, else
equality after removing the characters `.` and `_`. -/
def verify_email_match (expected actual : String) : Bool × String :=
  let exp_email := py_strip (py_lower expected)
  let act_email := py_strip (py_lower actual)
  if exp_email = act_email then (true, "Email match")
  else if remove_char '_' (remove_char '.' exp_email) = remove_char '_' (remove_char '.' act_email) then
    (true, "Email match (formatting differences)")
  else (false, "Email mismatch")

/-- Strips a leading US country code: drop the initial `1` of an 11-digit
sequence beginning with `1` (source lines 173–176 of validation.py). -/
def drop_us_code (d : List Char) : List Char :=
  if d.take 1 = ['1'] ∧ d.length = 11 then d.drop 1 else d

/-- `FormVerifier._verify_phone_match`: compare digit sequences after
stripping a leading US country code from 11-digit numbers. -/
def verify_phone_match (expected actual : String) : Bool × String :=
  let exp_digits := drop_us_code (digits_of expected)
  let act_digits := drop_us_code (digits_of actual)
  if exp_digits = act_digits then (true, "Phone match")
  else (false, "Phone mismatch")

/-- `FormVerifier._verify_url_match`: equality after normalising `http://`
to `https://` and stripping surrounding slashes. -/
def verify_url_match (expected actual : String) : Bool × String :=
  let exp_url := strip_slashes (String.replace expected "http://" "https://")
  let act_url := strip_slashes (String.replace actual "http://" "https://")
  if exp_url = act_url then (true, "URL match")
  else (false, "URL mismatch")

/-- `FormVerifier._verify_text_match`: case-insensitive equality, substring
containment in either direction, or character-match similarity above 0.85. -/
def verify_text_match (expected actual : String) : Bool × String :=
  if py_lower expected = py_lower actual then (true, "Text match (case insensitive)")
  else if contains_sub (py_lower actual) (py_lower expected)
        || contains_sub (py_lower expected) (py_lower actual) then
    (true, "Text match (partial)")
  else if (0.85 : ℚ) < calculate_similarity (py_lower expected) (py_lower actual) then
    (true, "Text match (similar)")
  else (false, "Text mismatch")

/-- `FormVerifier.verify_field_value` (default `field_type` is `"text"`):
accepts a raw-empty pair, then whitespace-stripped exact equality, then
dispatches on the field type. -/
def verify_field_value (expected actual : String) (field_type : String) : Bool × String :=
  if expected = "" ∧ actual = "" then (true, "Both empty - OK")
  else
    let expected_norm := if expected = "" then "" else py_strip expected
    let actual_norm := if actual = "" then "" else py_strip actual
    if expected_norm = actual_norm then (true, "Exact match")
    else if field_type = "email" then verify_email_match expected_norm actual_norm
    else if field_type = "phone" then verify_phone_match expected_norm actual_norm
    else if field_type = "url" then verify_url_match expected_norm actual_norm
    else verify_text_match expected_norm actual_norm

/-! ## `graph/deepseek_llm.py` — fallback classification

`DeepSeekLLMService.classify_field` retries the HTTP oracle up to
`max_retries` times; once every attempt is exhausted it returns
`_get_fallback_classification(prompt)` (lines 166–167), so the
oracle-unreachable behaviour is exactly this total function.  The result
dict has a fixed key set, modelled as a structure.
-/

/-- Result dict of `DeepSeekLLMService._get_fallback_classification`. -/
structure DSFallback where
  fill_strategy : String
  complexity : String
  confidence : ℚ
  reasoning : String
  mapped_to : Option String
  requires_rag : Bool
  estimated_time : ℚ
  priority : Nat
deriving DecidableEq

/-- `DeepSeekLLMService._get_fallback_classification`: deterministic pattern
rules applied to the lowered prompt, in source order. -/
def ds_get_fallback_classification (prompt : String) : DSFallback :=
  let prompt_lower := py_lower prompt
  if contains_any prompt_lower ["first name", "fname", "given name"] then
    { fill_strategy := "simple_mapping", complexity := "trivial", confidence := 0.70,
      reasoning := "API failed, fallback detected first name field",
      mapped_to := some "personal.first_name", requires_rag := false,
      estimated_time := 0.5, priority := 80 }
  else if contains_any prompt_lower ["email", "e-mail"] || contains_sub prompt_lower "type=\"email\"" then
    { fill_strategy := "simple_mapping", complexity := "trivial", confidence := 0.75,
      reasoning := "API failed, fallback detected email field",
      mapped_to := some "personal.email", requires_rag := false,
      estimated_time := 0.5, priority := 85 }
  else if contains_sub prompt_lower "tag=\"textarea\"" && contains_any prompt_lower ["cover letter", "why", "motivation"] then
    { fill_strategy := "rag_generation", complexity := "complex", confidence := 0.65,
      reasoning := "API failed, fallback detected essay field",
      mapped_to := none, requires_rag := true,
      estimated_time := 5.0, priority := 60 }
  else if contains_any prompt_lower ["assessment", "test", "quiz", "coding"] then
    { fill_strategy := "skip_field", complexity := "expert", confidence := 0.80,
      reasoning := "API failed, fallback detected assessment field",
      mapped_to := none, requires_rag := false,
      estimated_time := 0.1, priority := 5 }
  else
    { fill_strategy := "simple_mapping", complexity := "medium", confidence := 0.40,
      reasoning := "API failed, fallback to default classification",
      mapped_to := none, requires_rag := false,
      estimated_time := 2.0, priority := 50 }

/-! ## `complete_ai_browser_agent.py` — fallback classification

The second copy of the fallback classifier; its result dicts use the keys
`strategy` / `confidence` / optional `value` / `reasoning`.
-/

/-- Result dict of `_get_fallback_classification` in
`complete_ai_browser_agent.py`. -/
structure CAFallback where
  strategy : String
  confidence : ℚ
  value : Option String
  reasoning : String
deriving DecidableEq

/-- `_get_fallback_classification` of `complete_ai_browser_agent.py`:
pattern rules in source order (lines 216–279). -/
def ca_get_fallback_classification (prompt : String) : CAFallback :=
  let prompt_lower := py_lower prompt
  if contains_any prompt_lower ["name", "first name", "fname", "given name"] then
    { strategy := "simple_mapping", confidence := 0.80, value := some "Timothy",
      reasoning := "API failed, fallback detected name field" }
  else if contains_any prompt_lower ["email", "e-mail"] then
    { strategy := "simple_mapping", confidence := 0.80, value := some "tlweave2@asu.edu",
      reasoning := "API failed, fallback detected email field" }
  else if contains_any prompt_lower ["phone", "mobile", "telephone"] then
    { strategy := "simple_mapping", confidence := 0.80, value := some "209-261-5308",
      reasoning := "API failed, fallback detected phone field" }
  else if contains_any prompt_lower ["gpa", "3.7", "grade"] then
    { strategy := "option_selection", confidence := 0.80, value := some "3.83",
      reasoning := "API failed, fallback detected GPA field" }
  else if contains_any prompt_lower ["university", "school", "college"] then
    { strategy := "option_selection", confidence := 0.80, value := some "Arizona State University",
      reasoning := "API failed, fallback detected university field" }
  else if contains_sub prompt_lower "type: input[radio]" then
    { strategy := "option_selection", confidence := 0.60, value := none,
      reasoning := "API failed, fallback for radio button" }
  else if contains_sub prompt_lower "type: input[checkbox]" then
    { strategy := "option_selection", confidence := 0.60, value := none,
      reasoning := "API failed, fallback for checkbox" }
  else if contains_sub prompt_lower "required: true" then
    { strategy := "simple_mapping", confidence := 0.50, value := none,
      reasoning := "API failed, required field fallback" }
  else
    { strategy := "skip_field", confidence := 0.40, value := none,
      reasoning := "API failed, fallback to skip non-essential field" }

/-! ## `graph/repair_strategies.py` — `SmartRepairSystem`

`FailureType`, `RepairStrategy` and the strategy selector.  Of the five
per-kind strategy methods only `_element_not_found_strategy` is present in
the sources; the other four are called from `_get_repair_strategy` but their
definitions are missing, so they are modelled from the spec (see their doc
comments).
-/

/-- `FailureType` enum of repair_strategies.py. -/
inductive FailureType where
  | ELEMENT_NOT_FOUND
  | VALUE_REJECTED
  | TIMEOUT
  | VALIDATION_ERROR
  | ACCESS_DENIED
  | UNKNOWN
deriving DecidableEq

/-- One repair action dict, e.g. `{"type": "wait", "duration": 1.0}`. -/
structure RAction where
  type : String
  duration : Option ℚ := none
deriving DecidableEq

/-- The `RepairStrategy` dataclass. -/
structure RepairStrategy where
  strategy_type : String
  confidence : ℚ
  estimated_time : ℚ
  fallback_available : Bool
  repair_actions : List RAction
deriving DecidableEq

/-- The failed field dict passed to the strategy methods (unused by them). -/
def RepairField : Type := List (String × String)

/-- `SmartRepairSystem._element_not_found_strategy`: pure function of the
retry count — alternative selectors first, then wait-and-retry, then a
terminal skip with confidence 1.0. -/
def element_not_found_strategy (_field : RepairField) (retry_count : Nat) : RepairStrategy :=
  if retry_count = 0 then
    { strategy_type := "alternative_selectors", confidence := 0.8, estimated_time := 2.0,
      fallback_available := true,
      repair_actions := [{ type := "wait", duration := some 1.0 },
                         { type := "refresh_snapshot" },
                         { type := "try_alternative_selectors" }] }
  else if retry_count = 1 then
    { strategy_type := "wait_and_retry", confidence := 0.6, estimated_time := 5.0,
      fallback_available := true,
      repair_actions := [{ type := "wait_for_stability", duration := some 3.0 },
                         { type := "refresh_snapshot" },
                         { type := "retry_original_selector" }] }
  else
    { strategy_type := "skip_field", confidence := 1.0, estimated_time := 0.1,
      fallback_available := false,
      repair_actions := [{ type := "mark_as_skipped" },
                         { type := "continue_to_next" }] }

/-- Modelled from the spec: `_access_denied_strategy` is called from
`_get_repair_strategy` (repair_strategies.py line 76) but its definition is
missing from the sources.  Spec §4.3: `AccessDenied` "escalates to human
review immediately (no retries)", for every retry count. -/
def access_denied_strategy (_field : RepairField) (_retry_count : Nat) : RepairStrategy :=
  { strategy_type := "escalate_human_review", confidence := 1.0, estimated_time := 0,
    fallback_available := false,
    repair_actions := [{ type := "escalate_to_human" }] }

/-- Modelled from the spec: shared retry ladder for the strategy methods
missing from the sources (`_value_rejected_strategy`, `_timeout_strategy`,
`_unknown_failure_strategy`).  Spec §4.3: with `retryCount = 0` always try
`AlternativeSelectors` first regardless of error kind (except AccessDenied);
with `retryCount = 1` use `WaitAndRetry`; at `retryCount ≥ maxRetries`
return `SkipField` with confidence 1.0. -/
def spec_retry_ladder (field : RepairField) (retry_count : Nat) : RepairStrategy :=
  element_not_found_strategy field retry_count

/-- Modelled from the spec: `_value_rejected_strategy` is missing from the
sources; per spec §4.3 it follows the common retry ladder. -/
def value_rejected_strategy (field : RepairField) (retry_count : Nat) : RepairStrategy :=
  spec_retry_ladder field retry_count

/-- Modelled from the spec: `_timeout_strategy` is missing from the sources;
per spec §4.3 it follows the common retry ladder. -/
def timeout_strategy (field : RepairField) (retry_count : Nat) : RepairStrategy :=
  spec_retry_ladder field retry_count

/-- Modelled from the spec: `_unknown_failure_strategy` is missing from the
sources; per spec §4.3 it follows the common retry ladder. -/
def unknown_failure_strategy (field : RepairField) (retry_count : Nat) : RepairStrategy :=
  spec_retry_ladder field retry_count

/-- `SmartRepairSystem._get_repair_strategy`: dispatch on the failure kind
(the trailing `else` of the source covers `VALIDATION_ERROR` and
`UNKNOWN`). -/
def get_repair_strategy (failure_type : FailureType) (field : RepairField)
    (retry_count : Nat) : RepairStrategy :=
  match failure_type with
  | .ELEMENT_NOT_FOUND => element_not_found_strategy field retry_count
  | .VALUE_REJECTED => value_rejected_strategy field retry_count
  | .TIMEOUT => timeout_strategy field retry_count
  | .ACCESS_DENIED => access_denied_strategy field retry_count
  | .VALIDATION_ERROR => unknown_failure_strategy field retry_count
  | .UNKNOWN => unknown_failure_strategy field retry_count

/-! ## `agent.py` — configuration, completion gate and main loop -/

/-- The `AgentConfig` dataclass of agent.py (same defaults as
models/config.py): `auto_submit = False`, `max_cycles = 10`,
`max_retries = 2`. -/
structure AgentConfig where
  profile_path : String
  resume_path : String
  questionnaire_path : String
  openai_api_key : String
  auto_submit : Bool := false
  max_cycles : Nat := 10
  max_retries : Nat := 2

/-- The slice of an LLM plan consumed by the main loop and by
`_should_submit`: whether any actions were planned, whether the plan
includes a submit step, and its completion estimate. -/
structure PlanInfo where
  has_actions : Bool
  includes_submit : Bool
  estimated_completion : ℚ

/-- `JobApplicationAgent._should_submit` (agent.py lines 293–319).  The
`snapshot` parameter of the source is unused there and omitted.  The
completed/failed action lists enter only through their lengths. -/
def should_submit (cfg : AgentConfig) (completed_actions failed_actions : Nat)
    (plan : PlanInfo) : Bool :=
  if !cfg.auto_submit then false
  else if !plan.includes_submit then false
  else if plan.estimated_completion < 0.9 then false
  else if completed_actions + failed_actions = 0 then false
  else if ((completed_actions : ℚ) / ((completed_actions : ℚ) + (failed_actions : ℚ))) < 0.95 then false
  else true

/-- Abstraction of one iteration of the environment (browser + oracle) as
seen by the main loop of `JobApplicationAgent.run`: the plan produced for
the cycle, whether the action batch made progress, the sizes of
`completed_actions` / `failed_actions` at the submit check, and whether
`_handle_submit` succeeds. -/
structure CycleEnv where
  plan : PlanInfo
  cycle_success : Bool
  completed_after : Nat
  failed_after : Nat
  submit_success : Bool

/-- The `while self.cycle_count < max_cycles` loop of
`JobApplicationAgent.run` (agent.py lines 107–157).  The fuel argument is
the number of remaining permitted iterations, `max_cycles - cycle_count`,
which is exactly the while-guard; `cc` is `cycle_count`.  Asynchronous
effects are supplied by `env`, indexed by the cycle number.  The result is
the final `cycle_count` together with the `final_state` string of the
returned `ExecutionResult`. -/
def run_loop (cfg : AgentConfig) (env : Nat → CycleEnv) : Nat → Nat → Nat × String
  | 0, cc => (cc, "form_filled")
  | fuel + 1, cc =>
    let c := cc + 1
    let e := env c
    if !e.plan.has_actions then (c, "form_filled")
    else if should_submit cfg e.completed_after e.failed_after e.plan && e.submit_success then
      (c, "submitted")
    else if !e.cycle_success && !e.plan.has_actions then (c, "form_filled")
    else run_loop cfg env fuel c

/-- `JobApplicationAgent.run` without the exception handler: start at
`cycle_count = 0` with the full cycle budget. -/
def run_agent (cfg : AgentConfig) (env : Nat → CycleEnv) : Nat × String :=
  run_loop cfg env cfg.max_cycles 0

/-! ## Graph state and routing (`graph/routing.py`,
`graph/enhanced_workflow.py`, `models/graph_state.py`) -/

/-- `FillStrategy` enum of models/graph_state.py. -/
inductive FillStrategy where
  | SIMPLE_MAPPING
  | RAG_GENERATION
  | OPTION_SELECTION
  | CONDITIONAL_LOGIC
  | SKIP_FIELD
deriving DecidableEq

/-- The `.value` string of each `FillStrategy` member. -/
def FillStrategy.value : FillStrategy → String
  | .SIMPLE_MAPPING => "simple_mapping"
  | .RAG_GENERATION => "rag_generation"
  | .OPTION_SELECTION => "option_selection"
  | .CONDITIONAL_LOGIC => "conditional"
  | .SKIP_FIELD => "skip"

/-- `FieldComplexity` enum of field_classifier.py. -/
inductive FieldComplexity where
  | TRIVIAL
  | SIMPLE
  | MEDIUM
  | COMPLEX
  | EXPERT
deriving DecidableEq

/-- The `.value` string of each `FieldComplexity` member. -/
def FieldComplexity.value : FieldComplexity → String
  | .TRIVIAL => "trivial"
  | .SIMPLE => "simple"
  | .MEDIUM => "medium"
  | .COMPLEX => "complex"
  | .EXPERT => "expert"

/-- The `AIFieldClassification` dataclass of field_classifier.py
(`max_length` is an `int` in Python, so modelled as `Int`). -/
structure AIFieldClassification where
  fill_strategy : FillStrategy
  complexity : FieldComplexity
  confidence : ℚ
  reasoning : String
  mapped_to : Option String := none
  requires_rag : Bool := false
  estimated_time : ℚ := 1.0
  max_length : Option Int := none
  question_extracted : Option String := none
  priority : Int := 50
deriving DecidableEq

/-- The `current_field` dict of the enhanced workflow: carries an optional
`classification`. -/
structure CurrentField where
  selector : String := ""
  classification : Option AIFieldClassification := none

/-- The slice of the `ApplicationState` TypedDict consumed by the routing
functions. -/
structure ApplicationState where
  url : String := ""
  fill_strategy : Option FillStrategy := none
  requires_human : Bool := false
  should_submit_requested : Bool := false
  current_field : Option CurrentField := none
  retry_count : Nat := 0
  form_completion : ℚ := 0
  field_queue : List String := []
  last_error : String := ""

/-- `route_after_analysis` (graph/routing.py lines 1–16): dispatch on
`state.get("fill_strategy")`; a missing strategy routes to human review. -/
def route_after_analysis (state : ApplicationState) : String :=
  match state.fill_strategy with
  | some .SIMPLE_MAPPING => "simple_fill"
  | some .RAG_GENERATION => "rag_fill"
  | some .OPTION_SELECTION => "option_fill"
  | some .CONDITIONAL_LOGIC => "conditional_logic"
  | some .SKIP_FIELD => "skip_field"
  | none => "human_review"

/-- `route_completion_check` (graph/routing.py lines 31–38): submit on
`form_completion >= 0.9`, otherwise keep processing while the queue is
non-empty, otherwise human review. -/
def route_completion_check (state : ApplicationState) : String :=
  if (0.9 : ℚ) ≤ state.form_completion then "submit_form"
  else if 0 < state.field_queue.length then "field_analysis"
  else "human_review"

/-- `route_after_field_analysis` (graph/enhanced_workflow.py lines 77–101):
no current field routes to the completion check, a field without a
classification to human review, otherwise dispatch on the classified
strategy (`SKIP_FIELD` advances the queue via `field_analysis`). -/
def route_after_field_analysis (state : ApplicationState) : String :=
  match state.current_field with
  | none => "completion_check"
  | some cf =>
    match cf.classification with
    | none => "human_review"
    | some cls =>
      match cls.fill_strategy with
      | .SIMPLE_MAPPING => "simple_fill"
      | .RAG_GENERATION => "rag_fill"
      | .OPTION_SELECTION => "option_selection"
      | .SKIP_FIELD => "field_analysis"
      | .CONDITIONAL_LOGIC => "human_review"

/-! ## `graph/field_classifier.py` — `AIFirstFieldClassifier`

The classifier memoizes verdicts by a fingerprint of the element and the
relevant page context.  The source builds the fingerprint as the MD5 digest
of the canonical JSON dump of nine fields; since the dump is injective on
that data, the fingerprint is modelled as the nine-field record itself and
the cache as a finite partial function on it.  The oracle
(`self.llm.classify_field(prompt)`) is an awaited external call; it is
modelled as an arbitrary response sequence indexed by the `ai_calls`
counter at the moment of the call, which covers nondeterministic oracles.
A response is `none` when the response dict cannot be parsed into
`AIFieldClassification` (the `except` branch of `_parse_ai_response`).
-/

/-- The `ActionableElement` dataclass (models/snapshot.py). -/
structure ActionableElement where
  tag : String
  type : Option String
  selector : String
  text : String
  placeholder : String
  value : String
  required : Bool
  visible : Bool
  enabled : Bool
  bounds : List (String × ℚ)
  attributes : List (String × String)
deriving DecidableEq

/-- The page-context dict passed to `classify_field`: title, url, and the
per-selector `nearby_text` map. -/
structure PageContext where
  title : String := ""
  url : String := ""
  nearby_text : List (String × List String) := []
deriving DecidableEq

/-- The `cache_data` record of `_generate_cache_key` (field_classifier.py
lines 385–402): the nine fields whose canonical JSON dump is hashed. -/
structure CacheKey where
  selector : String
  tag : String
  type : Option String
  placeholder : String
  text : String
  required : Bool
  attributes : List (String × String)
  page_title : String
  nearby_text : List String
deriving DecidableEq

/-- `AIFirstFieldClassifier._generate_cache_key`: assemble the fingerprint
data (`page_context.get("nearby_text", {}).get(element.selector, [])`
defaults to the empty list). -/
def generate_cache_key (element : ActionableElement) (page_context : PageContext) : CacheKey :=
  { selector := element.selector
    tag := element.tag
    type := element.type
    placeholder := element.placeholder
    text := element.text
    required := element.required
    attributes := element.attributes
    page_title := page_context.title
    nearby_text := (page_context.nearby_text.lookup element.selector).getD [] }

/-- A well-formed parsed oracle response dict (argument of
`_parse_ai_response`); `none` models a response the parser rejects. -/
structure OracleResponse where
  fill_strategy : FillStrategy
  complexity : FieldComplexity
  confidence : ℚ
  reasoning : String
  mapped_to : Option String := none
  requires_rag : Bool := false
  estimated_time : ℚ := 1.0
  max_length : Option Int := none
  question_extracted : Option String := none
  priority : Int := 50

/-- The `max_length` completion in `_parse_ai_response`: when the response
gives no (or a falsy) `max_length`, fall back to the element's `maxlength`
attribute when it parses as an integer. -/
def parse_max_length (ml : Option Int) (attr : Option String) : Option Int :=
  if ml = none ∨ ml = some 0 then
    match attr with
    | some v =>
      if v ≠ "" then
        match v.toInt? with
        | some n => some n
        | none => ml
      else ml
    | none => ml
  else ml

/-- `AIFirstFieldClassifier._parse_ai_response`: copy the response fields,
completing `max_length` from the element; on a malformed response return
the conservative fallback classification with confidence 0.30. -/
def parse_ai_response (resp : Option OracleResponse) (element : ActionableElement) :
    AIFieldClassification :=
  match resp with
  | some r =>
    { fill_strategy := r.fill_strategy
      complexity := r.complexity
      confidence := r.confidence
      reasoning := r.reasoning
      mapped_to := r.mapped_to
      requires_rag := r.requires_rag
      estimated_time := r.estimated_time
      max_length := parse_max_length r.max_length (element.attributes.lookup "maxlength")
      question_extracted := r.question_extracted
      priority := r.priority }
  | none =>
    { fill_strategy := .SIMPLE_MAPPING
      complexity := .MEDIUM
      confidence := 0.30
      reasoning := "Failed to parse AI response"
      estimated_time := 2.0 }

/-- The `classification_stats` dict of `AIFirstFieldClassifier`. -/
structure ClassifierStats where
  total_classified : Nat := 0
  ai_calls : Nat := 0
  cache_hits : Nat := 0
  strategies : List (String × Nat) := []
  complexities : List (String × Nat) := []

/-- Python `d[k] = d.get(k, 0) + 1` on a string-counter dict. -/
def dict_bump : List (String × Nat) → String → List (String × Nat)
  | [], k => [(k, 1)]
  | (k', v) :: t, k => if k' = k then (k', v + 1) :: t else (k', v) :: dict_bump t k

/-- The mutable state of one `AIFirstFieldClassifier` instance. -/
structure ClassifierState where
  use_cache : Bool
  cache : CacheKey → Option AIFieldClassification
  stats : ClassifierStats

/-- `AIFirstFieldClassifier._update_stats`. -/
def update_stats (c : AIFieldClassification) (s : ClassifierState) : ClassifierState :=
  { s with stats :=
    { s.stats with
      total_classified := s.stats.total_classified + 1
      strategies := dict_bump s.stats.strategies c.fill_strategy.value
      complexities := dict_bump s.stats.complexities c.complexity.value } }

/-- `AIFirstFieldClassifier.classify_field` (lines 239–272): a cache hit
increments `cache_hits` and returns the stored verdict without an oracle
call; a miss consults the oracle (response number `ai_calls`), increments
`ai_calls`, parses, stores the verdict when caching is enabled, and runs
`_update_stats`. -/
def classify_field (llm : Nat → Option OracleResponse) (element : ActionableElement)
    (page_context : PageContext) (s : ClassifierState) :
    AIFieldClassification × ClassifierState :=
  let cache_key := generate_cache_key element page_context
  match (if s.use_cache then s.cache cache_key else none) with
  | some cached =>
    (cached, { s with stats := { s.stats with cache_hits := s.stats.cache_hits + 1 } })
  | none =>
    let ai_response := llm s.stats.ai_calls
    let s1 := { s with stats := { s.stats with ai_calls := s.stats.ai_calls + 1 } }
    let classification := parse_ai_response ai_response element
    let s2 :=
      if s1.use_cache then
        { s1 with cache := fun k => if k = cache_key then some classification else s1.cache k }
      else s1
    (classification, update_stats classification s2)

/-- The dict returned by `get_classification_stats` (lines 420–431). -/
structure StatsReport where
  total_classified : Nat
  ai_calls : Nat
  cache_hits : Nat
  cache_hit_rate : ℚ
  ai_call_rate : ℚ

/-- `AIFirstFieldClassifier.get_classification_stats`: the hit and call
counters divided by `total_classified` (0 when nothing was classified). -/
def get_classification_stats (s : ClassifierState) : StatsReport :=
  { total_classified := s.stats.total_classified
    ai_calls := s.stats.ai_calls
    cache_hits := s.stats.cache_hits
    cache_hit_rate :=
      if 0 < s.stats.total_classified then
        (s.stats.cache_hits : ℚ) / (s.stats.total_classified : ℚ)
      else 0
    ai_call_rate :=
      if 0 < s.stats.total_classified then
        (s.stats.ai_calls : ℚ) / (s.stats.total_classified : ℚ)
      else 0 }

/-- A concrete form-field element used to instantiate the classifier
theorems. -/
def sample_element : ActionableElement :=
  { tag := "input", type := some "text", selector := "#first-name", text := ""
    placeholder := "First Name", value := "", required := true
    visible := true, enabled := true, bounds := [], attributes := [] }

/-- A concrete page context used to instantiate the classifier theorems. -/
def sample_context : PageContext :=
  { title := "Careers", url := "https://example.test/apply", nearby_text := [] }

/-- A concrete oracle whose responses are never parseable, standing for an
unreachable or malformed oracle. -/
def sample_oracle : Nat → Option OracleResponse := fun _ => none

/-- The initial state of an `AIFirstFieldClassifier` constructed with
`use_cache = True`: empty cache, zeroed statistics. -/
def initial_classifier_state : ClassifierState :=
  { use_cache := true, cache := fun _ => none, stats := {} }

/-- A demonstration state whose current field carries a skip-classified
assessment verdict, used to instantiate the routing theorems. -/
def skip_routing_state : ApplicationState :=
  { fill_strategy := some FillStrategy.SKIP_FIELD
    current_field :=
      some
        { selector := "#assessment-q1"
          classification :=
            some
              { fill_strategy := FillStrategy.SKIP_FIELD
                complexity := FieldComplexity.EXPERT
                confidence := 0.96
                reasoning := "assessment field, skipped" } } }

/-! ## Spec-side definitions

Definitions written from the words of the spec/claims (not from the
sources), used only to compare a claimed policy against the implemented
one. -/

/-- Definition following the words of claim C5 (not the source): field
verification succeeds exactly when one of the claimed tolerance rules
holds — exact equality; case-insensitive equality; substring containment
in either direction; for phone fields, equality after stripping non-digit
characters; for email fields, equality after lowercasing. -/
def spec_tolerance_accepts (field_type expected actual : String) : Bool :=
  (expected == actual) ||
  (py_lower expected == py_lower actual) ||
  contains_sub actual expected || contains_sub expected actual ||
  (field_type == "phone" && (digits_of expected == digits_of actual)) ||
  (field_type == "email" && (py_lower expected == py_lower actual))

/-- The amended tolerance policy of claim C5, stated as a flat predicate:
a raw-empty pair or stripped exact equality is accepted for every field
type; beyond that the applicable rules depend on the field type — email:
lowercase equality or equality after removing the characters `.` and `_`;
phone: digit-sequence equality after dropping a leading US country code;
url: equality after protocol and slash normalisation; any other type
(text): case-insensitive equality, substring containment in either
direction, or character-match similarity above 0.85. -/
def amended_tolerance (field_type expected actual : String) : Prop :=
  let en := if expected = "" then "" else py_strip expected
  let an := if actual = "" then "" else py_strip actual
  (expected = "" ∧ actual = "") ∨
  en = an ∨
  (field_type = "email" ∧
    (py_strip (py_lower en) = py_strip (py_lower an) ∨
     remove_char '_' (remove_char '.' (py_strip (py_lower en)))
       = remove_char '_' (remove_char '.' (py_strip (py_lower an))))) ∨
  (field_type = "phone" ∧ drop_us_code (digits_of en) = drop_us_code (digits_of an)) ∨
  (field_type = "url" ∧
    strip_slashes (String.replace en "http://" "https://")
      = strip_slashes (String.replace an "http://" "https://")) ∨
  (field_type ≠ "email" ∧ field_type ≠ "phone" ∧ field_type ≠ "url" ∧
    (py_lower en = py_lower an ∨
     contains_sub (py_lower an) (py_lower en) = true ∨
     contains_sub (py_lower en) (py_lower an) = true ∨
     (0.85 : ℚ) < calculate_similarity (py_lower en) (py_lower an)))

/-! ## Theorems -/

/-- C2 (counterexample): the fallback classifier does not keep every branch
strictly below confidence 0.8 — the assessment branch of the deepseek
fallback and the name branch of the complete-agent fallback both return
confidence exactly 0.80, so for the prompt "assessment" (respectively
"name") the claimed strict bound `confidence < 0.8` fails. -/
theorem fallback_strict_bound_counterexample :
    (ds_get_fallback_classification "assessment").confidence = 0.80 ∧
    ¬ ((ds_get_fallback_classification "assessment").confidence < 0.8) ∧
    (ca_get_fallback_classification "name").confidence = 0.80 ∧
    ¬ ((ca_get_fallback_classification "name").confidence < 0.8) := by
  refine ⟨rfl, ?_, rfl, ?_⟩
  · have h : (ds_get_fallback_classification "assessment").confidence = 0.80 := rfl
    rw [h]; norm_num
  · have h : (ca_get_fallback_classification "name").confidence = 0.80 := rfl
    rw [h]; norm_num

/-- C2 (amended): for every prompt, the oracle-unreachable path returns the
deterministic fallback classification, a total function whose confidence is
at most 0.8 in every branch of both fallback implementations (name-like,
email-like, phone-like, GPA/school-like, essay-textarea-like,
assessment-like, radio/checkbox/required and the default branch); the
strict bound 0.8 claimed by the spec is attained with equality on several
branches. -/
theorem fallback_confidence_at_most (prompt : String) :
    (ds_get_fallback_classification prompt).confidence ≤ 0.8 ∧
    (ca_get_fallback_classification prompt).confidence ≤ 0.8 := by
  constructor
  · unfold ds_get_fallback_classification
    dsimp only
    split_ifs <;> norm_num
  · unfold ca_get_fallback_classification
    dsimp only
    split_ifs <;> norm_num

/-- C3: for the `ElementNotFound` failure kind the repair strategist is a
pure function of the retry count: retry 0 yields the alternative-selectors
plan, retry 1 the wait-and-retry plan, and every retry count at or above
the configured maximum (default `max_retries = 2`) yields the terminal
skip-field plan with confidence exactly 1.0; hence retry counts 0, 1, 2
produce exactly the plan sequence alternative_selectors, wait_and_retry,
skip_field. -/
theorem element_not_found_retry_schedule (field : RepairField) :
    (element_not_found_strategy field 0).strategy_type = "alternative_selectors" ∧
    (element_not_found_strategy field 1).strategy_type = "wait_and_retry" ∧
    (∀ n : Nat, 2 ≤ n →
      (element_not_found_strategy field n).strategy_type = "skip_field" ∧
      (element_not_found_strategy field n).confidence = 1.0) ∧
    ([0, 1, 2].map (fun n => (element_not_found_strategy field n).strategy_type)
      = ["alternative_selectors", "wait_and_retry", "skip_field"]) ∧
    (∀ p r q k : String,
      ({ profile_path := p, resume_path := r, questionnaire_path := q,
         openai_api_key := k } : AgentConfig).max_retries = 2) := by
  refine ⟨rfl, rfl, ?_, rfl, fun _ _ _ _ => rfl⟩
  intro n hn
  have h0 : ¬ (n = 0) := by omega
  have h1 : ¬ (n = 1) := by omega
  unfold element_not_found_strategy
  rw [if_neg h0, if_neg h1]
  exact ⟨rfl, rfl⟩

/-- C3 (witness): instantiating the schedule at retry count 2 on the empty
field dict. -/
theorem element_not_found_retry_schedule_witness :
    (element_not_found_strategy ([] : RepairField) 2).strategy_type = "skip_field" ∧
    (element_not_found_strategy ([] : RepairField) 2).confidence = 1.0 :=
  (element_not_found_retry_schedule ([] : RepairField)).2.2.1 2 (by omega)

/-- C4: for every retry count, the `AccessDenied` failure kind escalates to
human review immediately — its repair plan is the single escalation action,
never a retry plan — and `AccessDenied` is the only failure kind whose
retry count 0 does not produce an alternative-selectors plan. -/
theorem access_denied_escalates_immediately (field : RepairField) :
    (∀ n : Nat,
      (get_repair_strategy FailureType.ACCESS_DENIED field n).strategy_type
        = "escalate_human_review" ∧
      (get_repair_strategy FailureType.ACCESS_DENIED field n).repair_actions
        = [{ type := "escalate_to_human" }]) ∧
    (∀ k : FailureType, k ≠ FailureType.ACCESS_DENIED →
      (get_repair_strategy k field 0).strategy_type = "alternative_selectors") := by
  refine ⟨fun n => ⟨rfl, rfl⟩, ?_⟩
  intro k hk
  cases k <;> first | rfl | exact absurd rfl hk

/-- C4 (witness): the escalation at retry count 0 and the contrast with the
`ElementNotFound` kind, on the empty field dict. -/
theorem access_denied_escalates_immediately_witness :
    (get_repair_strategy FailureType.ACCESS_DENIED ([] : RepairField) 0).strategy_type
      = "escalate_human_review" ∧
    (get_repair_strategy FailureType.ELEMENT_NOT_FOUND ([] : RepairField) 0).strategy_type
      = "alternative_selectors" :=
  ⟨((access_denied_escalates_immediately ([] : RepairField)).1 0).1,
   (access_denied_escalates_immediately ([] : RepairField)).2
     FailureType.ELEMENT_NOT_FOUND (by intro h; cases h)⟩

/-- C1 (counterexample): the completion gate is not decided by the two
ratio thresholds and auto-submit alone — `_should_submit` additionally
requires the plan to include a submit step.  With auto-submit enabled,
estimated completion 0.92 ≥ 0.90 and success rate 24/25 = 0.96 ≥ 0.95 the
claim decides ReadyForSubmit, but the code returns `False` because
`plan.includes_submit` is false. -/
theorem completion_gate_counterexample :
    should_submit
      { profile_path := "", resume_path := "", questionnaire_path := "",
        openai_api_key := "", auto_submit := true }
      24 1
      { has_actions := true, includes_submit := false, estimated_completion := 0.92 } = false ∧
    ({ profile_path := "", resume_path := "", questionnaire_path := "",
       openai_api_key := "", auto_submit := true } : AgentConfig).auto_submit = true ∧
    (0.9 : ℚ) ≤ 0.92 ∧
    (0.95 : ℚ) ≤ ((24 : Nat) : ℚ) / (((24 : Nat) : ℚ) + ((1 : Nat) : ℚ)) := by
  refine ⟨rfl, rfl, by norm_num, ?_⟩
  push_cast
  norm_num

/-- C1 (amended): `_should_submit` returns true iff auto-submit is enabled
AND the plan includes a submit step AND estimated completion ≥ 0.90 AND at
least one action was attempted AND the success rate
|completed| / (|completed| + |failed|) is ≥ 0.95 (a zero denominator yields
false, matching the claimed rate-0 convention).  With auto-submit disabled
`_should_submit` never returns true.  The graph-level router
`route_completion_check`, however, routes to `submit_form` whenever
`form_completion ≥ 0.9`, consulting neither the success rate nor the
auto-submit configuration. -/
theorem completion_gate_characterization (cfg : AgentConfig)
    (completed failed : Nat) (plan : PlanInfo) :
    (should_submit cfg completed failed plan = true ↔
      cfg.auto_submit = true ∧ plan.includes_submit = true ∧
      (0.9 : ℚ) ≤ plan.estimated_completion ∧ 0 < completed + failed ∧
      (0.95 : ℚ) ≤ (completed : ℚ) / ((completed : ℚ) + (failed : ℚ))) ∧
    (cfg.auto_submit = false → should_submit cfg completed failed plan = false) ∧
    (∀ s : ApplicationState, (0.9 : ℚ) ≤ s.form_completion →
      route_completion_check s = "submit_form") := by
  refine ⟨?_, ?_, ?_⟩
  · unfold should_submit
    split_ifs with h1 h2 h3 h4 h5
    · simp only [Bool.not_eq_true'] at h1
      simp [h1]
    · simp only [Bool.not_eq_true'] at h2
      simp [h2]
    · simp only [false_iff]
      rintro ⟨-, -, hc, -, -⟩
      linarith
    · simp only [false_iff]
      rintro ⟨-, -, -, hpos, -⟩
      omega
    · simp only [false_iff]
      rintro ⟨-, -, -, -, hr⟩
      linarith
    · simp only [Bool.not_eq_true', Bool.not_eq_false] at h1 h2
      simp only [true_iff]
      exact ⟨h1, h2, le_of_not_lt h3, by omega, le_of_not_lt h5⟩
  · intro h
    unfold should_submit
    rw [h]
    rfl
  · intro s hs
    unfold route_completion_check
    rw [if_pos hs]

/-- C1 (witness): with auto-submit disabled (the default configuration) the
gate refuses even a fully complete, fully successful plan. -/
theorem completion_gate_characterization_witness :
    should_submit
      { profile_path := "", resume_path := "", questionnaire_path := "",
        openai_api_key := "" }
      5 0
      { has_actions := true, includes_submit := true, estimated_completion := 1 } = false :=
  (completion_gate_characterization
    { profile_path := "", resume_path := "", questionnaire_path := "",
      openai_api_key := "" }
    5 0
    { has_actions := true, includes_submit := true, estimated_completion := 1 }).2.1 rfl

/-- The first component of `_verify_email_match` as a disjunction of its
two acceptance rules. -/
theorem verify_email_match_fst (e a : String) :
    (verify_email_match e a).1 = true ↔
      (py_strip (py_lower e) = py_strip (py_lower a) ∨
       remove_char '_' (remove_char '.' (py_strip (py_lower e)))
         = remove_char '_' (remove_char '.' (py_strip (py_lower a)))) := by
  unfold verify_email_match
  dsimp only
  split_ifs with h1 h2
  · simp [h1]
  · simp [h2]
  · simp [h1, h2]

/-- The first component of `_verify_phone_match` as its single acceptance
rule. -/
theorem verify_phone_match_fst (e a : String) :
    (verify_phone_match e a).1 = true ↔
      drop_us_code (digits_of e) = drop_us_code (digits_of a) := by
  unfold verify_phone_match
  dsimp only
  split_ifs with h1 <;> simp [h1]

/-- The first component of `_verify_url_match` as its single acceptance
rule. -/
theorem verify_url_match_fst (e a : String) :
    (verify_url_match e a).1 = true ↔
      strip_slashes (String.replace e "http://" "https://")
        = strip_slashes (String.replace a "http://" "https://") := by
  unfold verify_url_match
  dsimp only
  split_ifs with h1 <;> simp [h1]

/-- The first component of `_verify_text_match` as a disjunction of its
three acceptance rules. -/
theorem verify_text_match_fst (e a : String) :
    (verify_text_match e a).1 = true ↔
      (py_lower e = py_lower a ∨
       contains_sub (py_lower a) (py_lower e) = true ∨
       contains_sub (py_lower e) (py_lower a) = true ∨
       (0.85 : ℚ) < calculate_similarity (py_lower e) (py_lower a)) := by
  unfold verify_text_match
  split_ifs with h1 h2 h3
  · simp [h1]
  · rw [Bool.or_eq_true] at h2
    simp only [true_iff]
    tauto
  · simp only [true_iff]
    tauto
  · rw [Bool.or_eq_true] at h2
    simp only [false_iff]
    rintro (h | h | h | h)
    · exact h1 h
    · exact h2 (Or.inl h)
    · exact h2 (Or.inr h)
    · exact h3 h

/-- C5 (counterexample): the claimed tolerance policy accepts the pair
("555-123", "555-1234") on a phone field by substring containment, but the
implemented verification applies only the digit-comparison rule to phone
fields and rejects it. -/
theorem verify_tolerance_counterexample :
    spec_tolerance_accepts "phone" "555-123" "555-1234" = true ∧
    (verify_field_value "555-123" "555-1234" "phone").1 = false := by
  exact ⟨by decide, by decide⟩

/-- C5 (amended): field verification succeeds exactly when the amended,
type-dispatched tolerance policy holds — a raw-empty pair or stripped
exact equality for every type; then, for email fields only, lowercase
equality or equality after removing the characters `.` and `_`; for phone
fields only, digit-sequence equality after dropping a leading US country
code; for url fields only, equality after protocol and slash
normalisation; and for all remaining (text) types, case-insensitive
equality, substring containment in either direction, or character-match
similarity above 0.85. -/
theorem verify_field_value_characterization (expected actual field_type : String) :
    (verify_field_value expected actual field_type).1 = true ↔
      amended_tolerance field_type expected actual := by
  unfold verify_field_value amended_tolerance
  dsimp only
  set en := (if expected = "" then "" else py_strip expected) with hen
  set an := (if actual = "" then "" else py_strip actual) with han
  split_ifs with hboth hexact hem hph hurl
  · exact ⟨fun _ => Or.inl hboth, fun _ => rfl⟩
  · exact ⟨fun _ => Or.inr (Or.inl hexact), fun _ => rfl⟩
  · rw [verify_email_match_fst]
    constructor
    · intro h
      exact Or.inr (Or.inr (Or.inl ⟨hem, h⟩))
    · rintro (⟨he, ha⟩ | h | ⟨-, h⟩ | ⟨hp, -⟩ | ⟨hu, -⟩ | ⟨hne, -, -, -⟩)
      · exact absurd ⟨he, ha⟩ hboth
      · exact absurd h hexact
      · exact h
      · exact absurd (hem.symm.trans hp) (by decide)
      · exact absurd (hem.symm.trans hu) (by decide)
      · exact absurd hem hne
  · rw [verify_phone_match_fst]
    constructor
    · intro h
      exact Or.inr (Or.inr (Or.inr (Or.inl ⟨hph, h⟩)))
    · rintro (⟨he, ha⟩ | h | ⟨hf, -⟩ | ⟨-, h⟩ | ⟨hu, -⟩ | ⟨-, hne, -, -⟩)
      · exact absurd ⟨he, ha⟩ hboth
      · exact absurd h hexact
      · exact absurd hf hem
      · exact h
      · exact absurd (hph.symm.trans hu) (by decide)
      · exact absurd hph hne
  · rw [verify_url_match_fst]
    constructor
    · intro h
      exact Or.inr (Or.inr (Or.inr (Or.inr (Or.inl ⟨hurl, h⟩))))
    · rintro (⟨he, ha⟩ | h | ⟨hf, -⟩ | ⟨hf, -⟩ | ⟨-, h⟩ | ⟨-, -, hne, -⟩)
      · exact absurd ⟨he, ha⟩ hboth
      · exact absurd h hexact
      · exact absurd hf hem
      · exact absurd hf hph
      · exact h
      · exact absurd hurl hne
  · rw [verify_text_match_fst]
    constructor
    · intro h
      exact Or.inr (Or.inr (Or.inr (Or.inr (Or.inr ⟨hem, hph, hurl, h⟩))))
    · rintro (⟨he, ha⟩ | h | ⟨hf, -⟩ | ⟨hf, -⟩ | ⟨hf, -⟩ | ⟨-, -, -, h⟩)
      · exact absurd ⟨he, ha⟩ hboth
      · exact absurd h hexact
      · exact absurd hf hem
      · exact absurd hf hph
      · exact absurd hf hurl
      · exact h

/-- A whitespace character is never a decimal digit. -/
theorem whitespace_not_digit (c : Char) (h : c.isWhitespace = true) :
    c.isDigit = false := by
  have h2 : ((c = ' ' ∨ c = '\t') ∨ c = '\x0d') ∨ c = '\n' := by
    simpa [Char.isWhitespace] using h
  rcases h2 with ((rfl | rfl) | rfl) | rfl <;> rfl

/-- Dropping leading whitespace does not change the digit filter. -/
theorem filter_digits_dropWhile_ws (l : List Char) :
    (l.dropWhile Char.isWhitespace).filter Char.isDigit = l.filter Char.isDigit := by
  induction l with
  | nil => rfl
  | cons c t ih =>
    by_cases hc : c.isWhitespace = true
    · rw [List.dropWhile_cons_of_pos hc, ih, List.filter_cons,
        whitespace_not_digit c hc]
      simp
    · rw [List.dropWhile_cons_of_neg hc]

/-- Whitespace stripping does not change the digit sequence of a string. -/
theorem digits_of_py_strip (s : String) : digits_of (py_strip s) = digits_of s := by
  show (((s.toList.dropWhile Char.isWhitespace).reverse.dropWhile
      Char.isWhitespace).reverse).filter Char.isDigit = s.toList.filter Char.isDigit
  rw [List.filter_reverse, filter_digits_dropWhile_ws, List.filter_reverse,
    filter_digits_dropWhile_ws, List.reverse_reverse]

/-- C10: phone-field verification tolerates a leading US country code —
whenever the digit sequences of the two strings become equal after
dropping a leading `1` from an 11-digit sequence, verification succeeds. -/
theorem phone_verification_drops_us_code (expected actual : String)
    (h : drop_us_code (digits_of expected) = drop_us_code (digits_of actual)) :
    (verify_field_value expected actual "phone").1 = true := by
  unfold verify_field_value
  dsimp only
  set en := (if expected = "" then "" else py_strip expected) with hen
  set an := (if actual = "" then "" else py_strip actual) with han
  have hdig_e : digits_of en = digits_of expected := by
    rw [hen]
    split_ifs with hx
    · rw [hx]
    · exact digits_of_py_strip expected
  have hdig_a : digits_of an = digits_of actual := by
    rw [han]
    split_ifs with hx
    · rw [hx]
    · exact digits_of_py_strip actual
  split_ifs with hboth hexact hem hph hurl
  · rfl
  · rfl
  · exact absurd hem (by decide)
  · rw [verify_phone_match_fst, hdig_e, hdig_a]
    exact h
  · exact absurd rfl hph
  · exact absurd rfl hph

/-- C10 (witness): expected `1-555-123-4567` is verified against actual
`(555) 123-4567` although their raw digit strings differ. -/
theorem phone_verification_drops_us_code_witness :
    drop_us_code (digits_of "1-555-123-4567") = drop_us_code (digits_of "(555) 123-4567") ∧
    digits_of "1-555-123-4567" ≠ digits_of "(555) 123-4567" ∧
    (verify_field_value "1-555-123-4567" "(555) 123-4567" "phone").1 = true :=
  ⟨by decide, by decide, phone_verification_drops_us_code _ _ (by decide)⟩

/-- A cache hit returns the stored verdict and only bumps the hit
counter. -/
theorem classify_field_hit (llm : Nat → Option OracleResponse)
    (element : ActionableElement) (page_context : PageContext)
    (s : ClassifierState) (h : s.use_cache = true)
    (cached : AIFieldClassification)
    (hc : s.cache (generate_cache_key element page_context) = some cached) :
    classify_field llm element page_context s
      = (cached, { s with stats := { s.stats with cache_hits := s.stats.cache_hits + 1 } }) := by
  unfold classify_field
  rw [h]
  dsimp only
  rw [hc]
  rfl

/-- After one `classify_field` call with caching enabled, caching remains
enabled and the fingerprint of the classified pair maps to the verdict
just returned. -/
theorem classify_field_caches_result (llm : Nat → Option OracleResponse)
    (element : ActionableElement) (page_context : PageContext)
    (s : ClassifierState) (h : s.use_cache = true) :
    ((classify_field llm element page_context s).2.use_cache = true) ∧
    ((classify_field llm element page_context s).2.cache
        (generate_cache_key element page_context)
      = some (classify_field llm element page_context s).1) := by
  unfold classify_field
  rw [h]
  dsimp only
  cases hc : s.cache (generate_cache_key element page_context) with
  | some c =>
    exact ⟨rfl, hc⟩
  | none =>
    refine ⟨rfl, ?_⟩
    show (if generate_cache_key element page_context
          = generate_cache_key element page_context
        then some (parse_ai_response (llm s.stats.ai_calls) element)
        else s.cache (generate_cache_key element page_context))
      = some (parse_ai_response (llm s.stats.ai_calls) element)
    rw [if_pos rfl]

/-- C6: with caching enabled, a second `classify_field` call on the same
(descriptor, context) pair — for any oracle behaviour — returns the
identical verdict as the first call, performs no further oracle call
(`ai_calls` is unchanged), and registers a fingerprint-cache hit
(`cache_hits` increases by exactly one). -/
theorem classify_field_cache_determinism (llm : Nat → Option OracleResponse)
    (element : ActionableElement) (page_context : PageContext)
    (s : ClassifierState) (h : s.use_cache = true) :
    ((classify_field llm element page_context
        (classify_field llm element page_context s).2).1
      = (classify_field llm element page_context s).1) ∧
    ((classify_field llm element page_context
        (classify_field llm element page_context s).2).2.stats.ai_calls
      = (classify_field llm element page_context s).2.stats.ai_calls) ∧
    ((classify_field llm element page_context
        (classify_field llm element page_context s).2).2.stats.cache_hits
      = (classify_field llm element page_context s).2.stats.cache_hits + 1) := by
  obtain ⟨h1, h2⟩ := classify_field_caches_result llm element page_context s h
  rw [classify_field_hit llm element page_context
    (classify_field llm element page_context s).2 h1
    (classify_field llm element page_context s).1 h2]
  exact ⟨rfl, rfl, rfl⟩

/-- C6 (witness): the determinism property instantiated at a concrete
element, context, initial state and (unparseable-response) oracle. -/
theorem classify_field_cache_determinism_witness :
    ((classify_field sample_oracle sample_element sample_context
        (classify_field sample_oracle sample_element sample_context
          initial_classifier_state).2).1
      = (classify_field sample_oracle sample_element sample_context
          initial_classifier_state).1) ∧
    ((classify_field sample_oracle sample_element sample_context
        (classify_field sample_oracle sample_element sample_context
          initial_classifier_state).2).2.stats.ai_calls
      = (classify_field sample_oracle sample_element sample_context
          initial_classifier_state).2.stats.ai_calls) ∧
    ((classify_field sample_oracle sample_element sample_context
        (classify_field sample_oracle sample_element sample_context
          initial_classifier_state).2).2.stats.cache_hits
      = (classify_field sample_oracle sample_element sample_context
          initial_classifier_state).2.stats.cache_hits + 1) :=
  classify_field_cache_determinism sample_oracle sample_element sample_context
    initial_classifier_state rfl

/-- C7: routing out of field analysis is a pure function of the verdict
strategy — equal strategies route equally, the three fill strategies route
to their fill nodes, and a `SKIP_FIELD` verdict routes away from every
fill node (to the `skip_field` node in `routing.py` and back to
`field_analysis` in the enhanced workflow), so the fill executor is never
invoked for a skipped field. -/
theorem field_analysis_routing (s t : ApplicationState) :
    (s.fill_strategy = t.fill_strategy →
      route_after_analysis s = route_after_analysis t) ∧
    (s.fill_strategy = some FillStrategy.SIMPLE_MAPPING →
      route_after_analysis s = "simple_fill") ∧
    (s.fill_strategy = some FillStrategy.RAG_GENERATION →
      route_after_analysis s = "rag_fill") ∧
    (s.fill_strategy = some FillStrategy.OPTION_SELECTION →
      route_after_analysis s = "option_fill") ∧
    (s.fill_strategy = some FillStrategy.SKIP_FIELD →
      route_after_analysis s = "skip_field" ∧
      route_after_analysis s ∉ (["simple_fill", "rag_fill", "option_fill"] : List String)) ∧
    (∀ cf cls, s.current_field = some cf → cf.classification = some cls →
      cls.fill_strategy = FillStrategy.SKIP_FIELD →
      route_after_field_analysis s = "field_analysis" ∧
      route_after_field_analysis s
        ∉ (["simple_fill", "rag_fill", "option_selection"] : List String)) := by
  refine ⟨?_, ?_, ?_, ?_, ?_, ?_⟩
  · intro h
    unfold route_after_analysis
    rw [h]
  · intro h
    unfold route_after_analysis
    rw [h]
  · intro h
    unfold route_after_analysis
    rw [h]
  · intro h
    unfold route_after_analysis
    rw [h]
  · intro h
    unfold route_after_analysis
    rw [h]
    exact ⟨rfl, by decide⟩
  · intro cf cls h1 h2 h3
    unfold route_after_field_analysis
    rw [h1]
    dsimp only
    rw [h2]
    dsimp only
    rw [h3]
    exact ⟨rfl, by decide⟩

/-- C7 (witness): a skip-classified assessment field routes to
`skip_field` / `field_analysis` in the two routers. -/
theorem field_analysis_routing_witness :
    route_after_analysis skip_routing_state = "skip_field" ∧
    route_after_field_analysis skip_routing_state = "field_analysis" :=
  ⟨((field_analysis_routing skip_routing_state skip_routing_state).2.2.2.2.1 rfl).1,
   ((field_analysis_routing skip_routing_state skip_routing_state).2.2.2.2.2
      _ _ rfl rfl rfl).1⟩

/-- The main loop advances `cycle_count` by at most its remaining fuel and
always ends in `submitted` or `form_filled`. -/
theorem run_loop_bound (cfg : AgentConfig) (env : Nat → CycleEnv) :
    ∀ fuel cc, (run_loop cfg env fuel cc).1 ≤ cc + fuel ∧
      ((run_loop cfg env fuel cc).2 = "submitted" ∨
       (run_loop cfg env fuel cc).2 = "form_filled") := by
  intro fuel
  induction fuel with
  | zero =>
    intro cc
    exact ⟨Nat.le_refl cc, Or.inr rfl⟩
  | succ n ih =>
    intro cc
    simp only [run_loop]
    split_ifs with h1 h2 h3
    · exact ⟨by omega, Or.inr rfl⟩
    · exact ⟨by omega, Or.inl rfl⟩
    · exact ⟨by omega, Or.inr rfl⟩
    · have h := ih (cc + 1)
      exact ⟨by omega, h.2⟩

/-- C8: for every configuration and every environment behaviour, the
orchestration main loop executes at most `max_cycles` iterations (the
default configuration gives `max_cycles = 10`) and then returns a terminal
result — final state `submitted` or `form_filled` — rather than looping
further. -/
theorem agent_cycle_budget (cfg : AgentConfig) (env : Nat → CycleEnv) :
    (run_agent cfg env).1 ≤ cfg.max_cycles ∧
    ((run_agent cfg env).2 = "submitted" ∨ (run_agent cfg env).2 = "form_filled") ∧
    (∀ p r q k : String,
      ({ profile_path := p, resume_path := r, questionnaire_path := q,
         openai_api_key := k } : AgentConfig).max_cycles = 10) := by
  have h := run_loop_bound cfg env cfg.max_cycles 0
  refine ⟨?_, h.2, fun _ _ _ _ => rfl⟩
  have := h.1
  simpa [run_agent] using this

/-- C9: the classifier statistics are not a ratio bounded by 1 — after
three `classify_field` calls with the same fingerprint (one miss, two
hits), `total_classified` is 1 while `cache_hits` is 2, so
`get_classification_stats` reports a `cache_hit_rate` strictly greater
than 1. -/
theorem cache_hit_rate_exceeds_one :
    ((get_classification_stats (classify_field sample_oracle sample_element sample_context
        (classify_field sample_oracle sample_element sample_context
          (classify_field sample_oracle sample_element sample_context
            initial_classifier_state).2).2).2).total_classified = 1) ∧
    ((get_classification_stats (classify_field sample_oracle sample_element sample_context
        (classify_field sample_oracle sample_element sample_context
          (classify_field sample_oracle sample_element sample_context
            initial_classifier_state).2).2).2).cache_hits = 2) ∧
    (1 < (get_classification_stats (classify_field sample_oracle sample_element sample_context
        (classify_field sample_oracle sample_element sample_context
          (classify_field sample_oracle sample_element sample_context
            initial_classifier_state).2).2).2).cache_hit_rate) := by
  refine ⟨rfl, rfl, ?_⟩
  have h : (get_classification_stats (classify_field sample_oracle sample_element sample_context
      (classify_field sample_oracle sample_element sample_context
        (classify_field sample_oracle sample_element sample_context
          initial_classifier_state).2).2).2).cache_hit_rate
      = ((2 : Nat) : ℚ) / ((1 : Nat) : ℚ) := rfl
  rw [h]
  norm_num
